import Mathlib

/-!
Verification development for the CANtact userspace CAN driver
(`src/driver/src/lib.rs`).  The Rust code is shallowly embedded: machine
integers (`u32`, `u8`, `usize`) become `Nat` with explicit `% 2^32`
wherever wrap-around matters, fallible calls become `Except`/`Outcome`
values, and the out-of-scope Transport collaborator (the `device` module
is not part of the sources) is modelled from the spec as an oracle of
call outcomes.
-/

namespace Cantact

/-- Modelled from the spec: the gs_usb extended-frame flag occupies bit 31
of the wire `can_id` (the `device::gsusb` module is not among the
sources; spec section 6 fixes bit 31 as the extended flag). -/
def GSUSB_EXT_FLAG : Nat := 2 ^ 31

/-- Modelled from the spec: the gs_usb RTR flag occupies bit 30 of the
wire `can_id` (spec section 6). -/
def GSUSB_RTR_FLAG : Nat := 2 ^ 30

/-- Modelled from the spec: the receive-sentinel echo identifier.  The
source comment reads "loopback frame if echo_id is not -1", so the
sentinel is `-1` as a `u32`, i.e. `2^32 - 1`, distinct from the fixed
transmit marker `1` stamped by `to_host_frame`. -/
def GSUSB_RX_ECHO_ID : Nat := 2 ^ 32 - 1

/-- Modelled from the spec: listen-only feature bit of the mode bitmask
(spec section 6; exact numeric value does not affect any claim). -/
def GSUSB_FEATURE_LISTEN_ONLY : Nat := 1

/-- Modelled from the spec: loopback feature bit of the mode bitmask
(spec section 6; exact numeric value does not affect any claim). -/
def GSUSB_FEATURE_LOOP_BACK : Nat := 2

/-- Wire frame exchanged with the device (struct `HostFrame`); byte and
word fields are embedded as `Nat`. -/
structure HostFrame where
  echo_id : Nat
  flags : Nat
  reserved : Nat
  can_id : Nat
  can_dlc : Nat
  channel : Nat
  data : List Nat
deriving DecidableEq, Repr

/-- Public CAN frame (struct `Frame` of the driver crate).  The optional
receive timestamp is embedded as a `Nat` duration. -/
structure Frame where
  can_id : Nat
  can_dlc : Nat
  channel : Nat
  data : List Nat
  ext : Bool
  fd : Bool
  loopback : Bool
  rtr : Bool
  timestamp : Option Nat
deriving DecidableEq, Repr

/-- Embedding of `Frame::to_host_frame`: stamp `echo_id = 1`, OR the
extended flag into bit 31 and the RTR flag into bit 30 of the id, copy
dlc, channel and payload, zero the reserved fields. -/
def Frame.to_host_frame (f : Frame) : HostFrame :=
  let can_id := if f.ext then f.can_id ||| GSUSB_EXT_FLAG else f.can_id
  let can_id := if f.rtr then can_id ||| GSUSB_RTR_FLAG else can_id
  { echo_id := 1
    flags := 0
    reserved := 0
    can_id := can_id
    can_dlc := f.can_dlc
    channel := f.channel
    data := f.data }

/-- Embedding of `Frame::default`. -/
def Frame.default : Frame :=
  { can_id := 0
    can_dlc := 0
    data := [0, 0, 0, 0, 0, 0, 0, 0]
    channel := 0
    ext := false
    fd := false
    loopback := false
    rtr := false
    timestamp := none }

/-- Embedding of `Frame::from_host_frame`: extended flag is bit 31 of
the wire id, RTR is bit 30, the numeric id keeps only the low 30 bits
(`& 0x3FFF_FFFF`), loopback holds unless the echo id is the receive
sentinel, FD is unconditionally false and the timestamp is left unset. -/
def Frame.from_host_frame (hf : HostFrame) : Frame :=
  { can_id := hf.can_id &&& 0x3FFFFFFF
    can_dlc := hf.can_dlc
    data := hf.data
    channel := hf.channel
    ext := decide (0 < hf.can_id &&& GSUSB_EXT_FLAG)
    rtr := decide (0 < hf.can_id &&& GSUSB_RTR_FLAG)
    loopback := hf.echo_id != GSUSB_RX_ECHO_ID
    fd := false
    timestamp := none }

/-- Example frame used by concrete witnesses: an extended RTR frame. -/
def frame_ex : Frame :=
  { can_id := 0x1ABCDE
    can_dlc := 8
    channel := 1
    data := [1, 2, 3, 4, 5, 6, 7, 8]
    ext := true
    fd := false
    loopback := false
    rtr := true
    timestamp := none }

/-- Bits at or above the width bound of a number are clear. -/
theorem testBit_high_of_lt {a n i : Nat} (h : a < 2 ^ n) (hni : n ≤ i) :
    a.testBit i = false :=
  Nat.testBit_lt_two_pow (lt_of_lt_of_le h (Nat.pow_le_pow_right (by norm_num) hni))

/-- ORing in a bit at or above the modulus width does not change the residue. -/
theorem or_high_mod (a n k : Nat) (hk : n ≤ k) :
    (a ||| 2 ^ k) % 2 ^ n = a % 2 ^ n := by
  apply Nat.eq_of_testBit_eq
  intro i
  simp only [Nat.testBit_mod_two_pow, Nat.testBit_or, Nat.testBit_two_pow]
  by_cases h : i < n
  · have hki : k ≠ i := by omega
    simp [h, hki]
  · simp [h]

/-- The bit ORed in is set in the result. -/
theorem testBit_or_two_pow_self (a k : Nat) : (a ||| 2 ^ k).testBit k = true := by
  simp [Nat.testBit_or, Nat.testBit_two_pow]

/-- ORing in a single distinct bit leaves other bit positions unchanged. -/
theorem testBit_or_two_pow_ne (a k i : Nat) (h : k ≠ i) :
    (a ||| 2 ^ k).testBit i = a.testBit i := by
  simp [Nat.testBit_or, Nat.testBit_two_pow, h]

/-- Testing a single masked bit for positivity recovers that bit. -/
theorem zero_lt_and_two_pow (w k : Nat) : decide (0 < w &&& 2 ^ k) = w.testBit k := by
  rw [Nat.and_two_pow]
  cases h : w.testBit k <;> simp

/-- The low-30-bit wire mask is a modulus. -/
theorem and_mask30_eq_mod (w : Nat) : w &&& 0x3FFFFFFF = w % 2 ^ 30 := by
  have h : (0x3FFFFFFF : Nat) = 2 ^ 30 - 1 := by norm_num
  rw [h, Nat.and_pow_two_sub_one_eq_mod]

/-- C3: codec round trip.  For every frame whose dlc is at most 8 and
whose arbitration id fits the width implied by its extended flag (11
bits standard, 29 bits extended), decoding the encoded wire frame
reproduces `can_id`, `can_dlc`, `channel` and the payload exactly and
recovers the `ext` and `rtr` flags; bit 31 of the wire id equals the
extended flag, bit 30 equals the RTR flag, and the decoded id is the
wire id with bits 30 and 31 stripped (reduction modulo `2^30`). -/
theorem codec_round_trip (f : Frame)
    (hstd : f.ext = false → f.can_id < 2 ^ 11)
    (hext : f.ext = true → f.can_id < 2 ^ 29)
    (_hdlc : f.can_dlc ≤ 8) :
    (Frame.from_host_frame f.to_host_frame).can_id = f.can_id ∧
    (Frame.from_host_frame f.to_host_frame).can_dlc = f.can_dlc ∧
    (Frame.from_host_frame f.to_host_frame).channel = f.channel ∧
    (Frame.from_host_frame f.to_host_frame).data = f.data ∧
    (Frame.from_host_frame f.to_host_frame).ext = f.ext ∧
    (Frame.from_host_frame f.to_host_frame).rtr = f.rtr ∧
    (f.to_host_frame.can_id.testBit 31 = f.ext) ∧
    (f.to_host_frame.can_id.testBit 30 = f.rtr) ∧
    (Frame.from_host_frame f.to_host_frame).can_id = f.to_host_frame.can_id % 2 ^ 30 := by
  have ha : f.can_id < 2 ^ 30 := by
    cases he : f.ext
    · exact lt_trans (hstd he) (by norm_num)
    · exact lt_trans (hext he) (by norm_num)
  have hmod : f.can_id % 1073741824 = f.can_id := Nat.mod_eq_of_lt ha
  have h31 : f.can_id.testBit 31 = false := testBit_high_of_lt ha (by norm_num)
  have h30 : f.can_id.testBit 30 = false := testBit_high_of_lt ha (by norm_num)
  have t1 : Nat.testBit 2147483648 31 = true := by decide
  have t2 : Nat.testBit 1073741824 31 = false := by decide
  have t3 : Nat.testBit 2147483648 30 = false := by decide
  have t4 : Nat.testBit 1073741824 30 = true := by decide
  have hb31 : f.to_host_frame.can_id.testBit 31 = f.ext := by
    cases he : f.ext <;> cases hr : f.rtr <;>
      simp [Frame.to_host_frame, he, hr, GSUSB_EXT_FLAG, GSUSB_RTR_FLAG,
        Nat.testBit_or, t1, t2, t3, t4, h31]
  have hb30 : f.to_host_frame.can_id.testBit 30 = f.rtr := by
    cases he : f.ext <;> cases hr : f.rtr <;>
      simp [Frame.to_host_frame, he, hr, GSUSB_EXT_FLAG, GSUSB_RTR_FLAG,
        Nat.testBit_or, t1, t2, t3, t4, h30]
  have hmod30 : f.to_host_frame.can_id % 1073741824 = f.can_id := by
    have m31 : ∀ x : Nat, (x ||| 2147483648) % 1073741824 = x % 1073741824 :=
      fun x => or_high_mod x 30 31 (by norm_num)
    have m30 : ∀ x : Nat, (x ||| 1073741824) % 1073741824 = x % 1073741824 :=
      fun x => or_high_mod x 30 30 (by norm_num)
    cases he : f.ext <;> cases hr : f.rtr <;>
      simp [Frame.to_host_frame, he, hr, GSUSB_EXT_FLAG, GSUSB_RTR_FLAG, m31, m30, hmod]
  have hdec : (Frame.from_host_frame f.to_host_frame).can_id =
      f.to_host_frame.can_id % 2 ^ 30 := and_mask30_eq_mod _
  refine ⟨?_, rfl, rfl, rfl, ?_, ?_, hb31, hb30, hdec⟩
  · rw [hdec]
    exact hmod30
  · show decide (0 < f.to_host_frame.can_id &&& 2 ^ 31) = f.ext
    rw [zero_lt_and_two_pow]
    exact hb31
  · show decide (0 < f.to_host_frame.can_id &&& 2 ^ 30) = f.rtr
    rw [zero_lt_and_two_pow]
    exact hb30

/-- Witness for C3 at a concrete extended RTR frame. -/
theorem codec_round_trip_witness :
    ((frame_ex.ext = false → frame_ex.can_id < 2 ^ 11) ∧
      (frame_ex.ext = true → frame_ex.can_id < 2 ^ 29) ∧ frame_ex.can_dlc ≤ 8) ∧
    ((Frame.from_host_frame frame_ex.to_host_frame).can_id = frame_ex.can_id ∧
      (Frame.from_host_frame frame_ex.to_host_frame).can_dlc = frame_ex.can_dlc ∧
      (Frame.from_host_frame frame_ex.to_host_frame).channel = frame_ex.channel ∧
      (Frame.from_host_frame frame_ex.to_host_frame).data = frame_ex.data ∧
      (Frame.from_host_frame frame_ex.to_host_frame).ext = frame_ex.ext ∧
      (Frame.from_host_frame frame_ex.to_host_frame).rtr = frame_ex.rtr ∧
      (frame_ex.to_host_frame.can_id.testBit 31 = frame_ex.ext) ∧
      (frame_ex.to_host_frame.can_id.testBit 30 = frame_ex.rtr) ∧
      (Frame.from_host_frame frame_ex.to_host_frame).can_id =
        frame_ex.to_host_frame.can_id % 2 ^ 30) :=
  ⟨⟨by decide, by decide, by decide⟩,
    codec_round_trip frame_ex (by decide) (by decide) (by decide)⟩

/-- C6: a decoded frame has `loopback = false` exactly when the wire
echo identifier is the receive sentinel, the decoded FD flag is always
false, and decoding any encoded frame yields `loopback = true` because
the encoder stamps the distinct transmit marker. -/
theorem loopback_detection (hf : HostFrame) (f : Frame) :
    ((Frame.from_host_frame hf).loopback = false ↔ hf.echo_id = GSUSB_RX_ECHO_ID) ∧
    (Frame.from_host_frame hf).fd = false ∧
    (Frame.from_host_frame f.to_host_frame).loopback = true := by
  refine ⟨?_, rfl, ?_⟩
  · simp [Frame.from_host_frame]
  · simp [Frame.from_host_frame, Frame.to_host_frame, GSUSB_RX_ECHO_ID]

/-- Witness for C6 at concrete frames: a received wire frame decodes
with `loopback = false`, and the encoded example frame decodes with
`loopback = true`. -/
theorem loopback_detection_witness :
    ((Frame.from_host_frame
        { echo_id := 2 ^ 32 - 1, flags := 0, reserved := 0, can_id := 5,
          can_dlc := 1, channel := 0, data := [9, 0, 0, 0, 0, 0, 0, 0] }).loopback = false) ∧
    (Frame.from_host_frame frame_ex.to_host_frame).loopback = true := by
  refine ⟨?_, (loopback_detection Frame.default.to_host_frame frame_ex).2.2⟩
  exact (loopback_detection
    { echo_id := 2 ^ 32 - 1, flags := 0, reserved := 0, can_id := 5,
      can_dlc := 1, channel := 0, data := [9, 0, 0, 0, 0, 0, 0, 0] }
    frame_ex).1.mpr (by decide)

/-- Hardware bit-timing registers (struct `BitTiming`; declared in the
device module, used throughout the driver sources). -/
structure BitTiming where
  brp : Nat
  prop_seg : Nat
  phase_seg1 : Nat
  phase_seg2 : Nat
  sjw : Nat
deriving DecidableEq, Repr

/-- Errors of the driver library (enum `Error`).  The device-error cause
carried by `DeviceError` is irrelevant to every claim and dropped. -/
inductive Error where
  | DeviceError
  | DeviceNotFound
  | Timeout
  | Running
  | NotRunning
  | InvalidChannel
  | InvalidBitrate (bitrate : Nat)
deriving DecidableEq, Repr

/-- Release-mode `u32` subtraction: wraps modulo `2^32` (faithful for
operands below `2^32`). -/
def u32_wrapping_sub (a b : Nat) : Nat := (a + 2 ^ 32 - b % 2 ^ 32) % 2 ^ 32

/-- Modelled from the spec: the f32 computations inside
`calculate_bit_timing` (the quotient `clk / bitrate / brp`, its
rounding, and the tolerance comparison) are floating point and are
abstracted as an oracle for a fixed (clock, bitrate) pair.
`btqRounded brp` stands for `(clk as f32 / bitrate as f32 / brp as f32).round() as u32`
(a saturating cast, hence below `2^32`), and `errExceeds t brp` stands
for the rounded relative error exceeding tolerance level `t`.  Theorems
below quantify over every such oracle, so they hold in particular for
the true f32 semantics. -/
structure FloatEnv where
  btqRounded : Nat → Nat
  errExceeds : Nat → Nat → Bool
  btqRounded_lt : ∀ brp, btqRounded brp < 2 ^ 32

/-- Inner loop of `calculate_bit_timing` (release semantics): search
`seg1` in `3..18`, derive `seg2 = btq_rounded - seg1 - 1` with wrapping
`u32` subtraction, and accept the first pair with `seg2` in `[2,8]`. -/
def seg1_search (btq_rounded : Nat) : Option (Nat × Nat) :=
  (List.range' 3 15).findSome? fun seg1 =>
    let seg2 := u32_wrapping_sub (u32_wrapping_sub btq_rounded seg1) 1
    if seg2 < 2 ∨ seg2 > 8 then none else some (seg1, seg2)

/-- Middle loop of `calculate_bit_timing`: iterate `brp` in `1..=32`;
when the rounded quanta lies in `[4,32]` and the quantization error
exceeds the tolerance the prescaler is skipped, otherwise the `seg1`
search runs. -/
def brp_search (env : FloatEnv) (tolIdx : Nat) : Option BitTiming :=
  (List.range' 1 32).findSome? fun brp =>
    let btq_rounded := env.btqRounded brp
    if 4 ≤ btq_rounded ∧ btq_rounded ≤ 32 ∧ env.errExceeds tolIdx brp = true then
      none
    else
      (seg1_search btq_rounded).map fun p => ⟨brp, 0, p.1, p.2, 1⟩

/-- Embedding of `calculate_bit_timing` (release semantics): try the
three tolerance levels in order and fall back to
`InvalidBitrate(bitrate)`. -/
def calculate_bit_timing (env : FloatEnv) (bitrate : Nat) : Except Error BitTiming :=
  match ([0, 1, 2].findSome? fun tolIdx => brp_search env tolIdx) with
  | some bt => .ok bt
  | none => .error (.InvalidBitrate bitrate)

/-- Inner loop of `calculate_bit_timing` under debug (overflow-checked)
semantics: the subtraction `btq_rounded - seg1 - 1` panics (embedded as
`Except.error ()`) when `btq_rounded < seg1 + 1`. -/
def seg1_loop_checked (qr : Nat) : List Nat → Except Unit (Option (Nat × Nat))
  | [] => .ok none
  | seg1 :: rest =>
    if qr < seg1 + 1 then .error ()
    else
      let seg2 := qr - seg1 - 1
      if seg2 < 2 ∨ seg2 > 8 then seg1_loop_checked qr rest
      else .ok (some (seg1, seg2))

/-- Middle loop of `calculate_bit_timing` under debug semantics. -/
def brp_loop_checked (env : FloatEnv) (tolIdx : Nat) :
    List Nat → Except Unit (Option BitTiming)
  | [] => .ok none
  | brp :: rest =>
    let qr := env.btqRounded brp
    if 4 ≤ qr ∧ qr ≤ 32 ∧ env.errExceeds tolIdx brp = true then
      brp_loop_checked env tolIdx rest
    else
      match seg1_loop_checked qr (List.range' 3 15) with
      | .error _ => .error ()
      | .ok (some p) => .ok (some ⟨brp, 0, p.1, p.2, 1⟩)
      | .ok none => brp_loop_checked env tolIdx rest

/-- Tolerance loop of `calculate_bit_timing` under debug semantics. -/
def tol_loop_checked (env : FloatEnv) : List Nat → Except Unit (Option BitTiming)
  | [] => .ok none
  | t :: rest =>
    match brp_loop_checked env t (List.range' 1 32) with
    | .error _ => .error ()
    | .ok (some bt) => .ok (some bt)
    | .ok none => tol_loop_checked env rest

/-- Embedding of `calculate_bit_timing` under debug (overflow-checked)
semantics; `Except.error ()` is an arithmetic-underflow panic. -/
def calculate_bit_timing_checked (env : FloatEnv) (bitrate : Nat) :
    Except Unit (Except Error BitTiming) :=
  match tol_loop_checked env [0, 1, 2] with
  | .error _ => .error ()
  | .ok (some bt) => .ok (.ok bt)
  | .ok none => .ok (.error (.InvalidBitrate bitrate))

/-- Float oracle for clock = bitrate = 24000000 Hz.  Both values are
exactly representable in f32 and their f32 quotient is exactly 1.0, so
the rounded quanta at prescaler 1 is exactly 1; the checked search
panics at (tolerance 0, brp 1, seg1 3) before consulting the oracle at
any other prescaler, so the remaining oracle values are immaterial. -/
def env_underflow : FloatEnv :=
  { btqRounded := fun _ => 1
    errExceeds := fun _ _ => true
    btqRounded_lt := fun _ => by norm_num }

/-- Float oracle with rounded quanta 12 everywhere and every tolerance
check passing; used as a concrete solvable instance by witnesses. -/
def env_ok : FloatEnv :=
  { btqRounded := fun _ => 12
    errExceeds := fun _ _ => false
    btqRounded_lt := fun _ => by norm_num }

/-- The solver result is either a timing or `InvalidBitrate` carrying
exactly the requested bitrate. -/
theorem calculate_bit_timing_error_shape (env : FloatEnv) (bitrate : Nat) :
    (∃ bt, calculate_bit_timing env bitrate = .ok bt) ∨
      calculate_bit_timing env bitrate = .error (.InvalidBitrate bitrate) := by
  cases h : ([0, 1, 2].findSome? fun tolIdx => brp_search env tolIdx) with
  | none =>
    right
    simp [calculate_bit_timing, h]
  | some bt =>
    left
    exact ⟨bt, by simp [calculate_bit_timing, h]⟩

/-- A rounded quanta below `phase_seg1 + 1` makes the wrapping
subtraction produce a value far above `max_seg2`, so every candidate is
rejected. -/
theorem seg1_search_low_qr (qr : Nat) (h : qr < 4) : seg1_search qr = none := by
  interval_cases qr <;> decide

/-- C4 counterexample: at clock = bitrate = 24000000 the rounded quanta
at prescaler 1 is exactly 1, below `phase_seg1 + 1 = 4`, and the
subtraction `btq_rounded - seg1 - 1` underflows: under overflow-checked
(debug) semantics the solver panics instead of returning, refuting the
claim that the derivation never underflows; the release (wrapping)
embedding still returns `InvalidBitrate` with the requested bitrate. -/
theorem calculate_bit_timing_underflow_panics :
    calculate_bit_timing_checked env_underflow 24000000 = .error () ∧
    calculate_bit_timing env_underflow 24000000 = .error (.InvalidBitrate 24000000) := by
  constructor <;> rfl

/-- C4 (amended): under release (wrapping) semantics the solver always
terminates with either a timing or the `InvalidBitrate` error carrying
exactly the requested bitrate, and whenever the rounded quanta is below
the smallest `phase_seg1 + 1` the wrapped subtraction result is
rejected, so no solution is fabricated from an underflow. -/
theorem bit_timing_solver_failure (env : FloatEnv) (bitrate : Nat) :
    ((∃ bt, calculate_bit_timing env bitrate = .ok bt) ∨
      calculate_bit_timing env bitrate = .error (.InvalidBitrate bitrate)) ∧
    (∀ qr, qr < 4 → seg1_search qr = none) :=
  ⟨calculate_bit_timing_error_shape env bitrate, fun qr h => seg1_search_low_qr qr h⟩

/-- Witness for C4 at a concrete oracle and rounded quanta. -/
theorem bit_timing_solver_failure_witness :
    (1 : Nat) < 4 ∧ seg1_search 1 = none :=
  ⟨by decide, (bit_timing_solver_failure env_underflow 24000000).2 1 (by decide)⟩

/-- C5: every solution returned by the solver satisfies the documented
register ranges: prescaler in `[1,32]`, `prop_seg = 0`, `sjw = 1`,
`phase_seg1` in `[3,18)`, `phase_seg2` in `[2,8]`, and quanta per bit
`prop_seg + phase_seg1 + phase_seg2 + 1` in `[4,32]`. -/
theorem solver_solution_ranges (env : FloatEnv) (bitrate : Nat) (bt : BitTiming)
    (h : calculate_bit_timing env bitrate = .ok bt) :
    1 ≤ bt.brp ∧ bt.brp ≤ 32 ∧ bt.prop_seg = 0 ∧ bt.sjw = 1 ∧
    3 ≤ bt.phase_seg1 ∧ bt.phase_seg1 < 18 ∧
    2 ≤ bt.phase_seg2 ∧ bt.phase_seg2 ≤ 8 ∧
    4 ≤ bt.prop_seg + bt.phase_seg1 + bt.phase_seg2 + 1 ∧
    bt.prop_seg + bt.phase_seg1 + bt.phase_seg2 + 1 ≤ 32 := by
  have h1 : ([0, 1, 2].findSome? fun tolIdx => brp_search env tolIdx) = some bt := by
    cases hfs : ([0, 1, 2].findSome? fun tolIdx => brp_search env tolIdx) with
    | none =>
      simp only [calculate_bit_timing, hfs] at h
      exact Except.noConfusion h
    | some bt' =>
      simp only [calculate_bit_timing, hfs, Except.ok.injEq] at h
      rw [h]
  obtain ⟨t, _ht, hbrp⟩ := List.exists_of_findSome?_eq_some h1
  obtain ⟨brp, hmem, hb⟩ := List.exists_of_findSome?_eq_some hbrp
  rw [List.mem_range'_1] at hmem
  simp only at hb
  split at hb
  · exact absurd hb (by simp)
  · rw [Option.map_eq_some'] at hb
    obtain ⟨⟨s1, s2⟩, hseg, hbt⟩ := hb
    obtain ⟨s1', hmem1, hf⟩ := List.exists_of_findSome?_eq_some hseg
    rw [List.mem_range'_1] at hmem1
    simp only at hf
    split at hf
    · exact absurd hf (by simp)
    · rename_i hrej
      push_neg at hrej
      simp only [Option.some.injEq, Prod.mk.injEq] at hf
      obtain ⟨hs1, hs2⟩ := hf
      subst hs1
      subst hbt
      dsimp only
      exact ⟨hmem.1, by omega, rfl, rfl, by omega, by omega, by omega, by omega,
        by omega, by omega⟩

/-- Witness for C5 at a concrete oracle where the solver succeeds. -/
theorem solver_solution_ranges_witness :
    1 ≤ (BitTiming.mk 1 0 3 8 1).brp ∧ (BitTiming.mk 1 0 3 8 1).brp ≤ 32 ∧
    (BitTiming.mk 1 0 3 8 1).prop_seg = 0 ∧ (BitTiming.mk 1 0 3 8 1).sjw = 1 ∧
    3 ≤ (BitTiming.mk 1 0 3 8 1).phase_seg1 ∧ (BitTiming.mk 1 0 3 8 1).phase_seg1 < 18 ∧
    2 ≤ (BitTiming.mk 1 0 3 8 1).phase_seg2 ∧ (BitTiming.mk 1 0 3 8 1).phase_seg2 ≤ 8 ∧
    4 ≤ (BitTiming.mk 1 0 3 8 1).prop_seg + (BitTiming.mk 1 0 3 8 1).phase_seg1 +
        (BitTiming.mk 1 0 3 8 1).phase_seg2 + 1 ∧
    (BitTiming.mk 1 0 3 8 1).prop_seg + (BitTiming.mk 1 0 3 8 1).phase_seg1 +
        (BitTiming.mk 1 0 3 8 1).phase_seg2 + 1 ≤ 32 :=
  solver_solution_ranges env_ok 500000 (BitTiming.mk 1 0 3 8 1) (by rfl)

/-- Embedding of `effective_bitrate` in `u32` arithmetic: the quanta
sum wraps modulo `2^32` (release builds) and a zero divisor makes the
Rust division panic, embedded as `none`. -/
def effective_bitrate (clk : Nat) (bt : BitTiming) : Option Nat :=
  let quanta := (bt.prop_seg + bt.phase_seg1 + bt.phase_seg2 + 1) % 2 ^ 32
  if bt.brp = 0 ∨ quanta = 0 then none
  else some (clk / bt.brp / quanta)

/-- C8 counterexample: a `BitTiming` with prescaler 1 whose `u32`
quanta sum wraps to zero makes the code panic on division by zero
(`none` in the embedding), while the claimed single-division formula
yields a value, so the claimed equality fails for this input. -/
theorem effective_bitrate_overflow_panics :
    effective_bitrate 1000 (BitTiming.mk 1 (2 ^ 32 - 1) 0 0 1) ≠
      some (1000 / (1 * (2 ^ 32 - 1 + 0 + 0 + 1))) := by decide

/-- C8 (amended): for every clock and every `BitTiming` with prescaler
at least 1 whose quanta sum does not overflow `u32`, the iterated
quotient computed by `effective_bitrate` equals the single division by
the product `prescaler * (prop_seg + phase_seg1 + phase_seg2 + 1)`. -/
theorem effective_bitrate_eq_single_division (clk : Nat) (bt : BitTiming)
    (hbrp : 1 ≤ bt.brp)
    (hsum : bt.prop_seg + bt.phase_seg1 + bt.phase_seg2 + 1 < 2 ^ 32) :
    effective_bitrate clk bt =
      some (clk / (bt.brp * (bt.prop_seg + bt.phase_seg1 + bt.phase_seg2 + 1))) := by
  have hq : (bt.prop_seg + bt.phase_seg1 + bt.phase_seg2 + 1) % 2 ^ 32 =
      bt.prop_seg + bt.phase_seg1 + bt.phase_seg2 + 1 := Nat.mod_eq_of_lt hsum
  simp only [effective_bitrate, hq]
  rw [if_neg (by omega)]
  rw [Nat.div_div_eq_div_mul]

/-- Witness for C8 at the classic 250 kbit/s register set. -/
theorem effective_bitrate_eq_single_division_witness :
    1 ≤ (BitTiming.mk 6 0 13 2 1).brp ∧
    (BitTiming.mk 6 0 13 2 1).prop_seg + (BitTiming.mk 6 0 13 2 1).phase_seg1 +
      (BitTiming.mk 6 0 13 2 1).phase_seg2 + 1 < 2 ^ 32 ∧
    effective_bitrate 24000000 (BitTiming.mk 6 0 13 2 1) =
      some (24000000 / ((BitTiming.mk 6 0 13 2 1).brp *
        ((BitTiming.mk 6 0 13 2 1).prop_seg + (BitTiming.mk 6 0 13 2 1).phase_seg1 +
          (BitTiming.mk 6 0 13 2 1).phase_seg2 + 1))) :=
  ⟨by decide, by decide,
    effective_bitrate_eq_single_division 24000000 (BitTiming.mk 6 0 13 2 1)
      (by decide) (by decide)⟩

/-- Per-channel configuration (struct `Channel`). -/
structure Channel where
  bitrate : Nat
  enabled : Bool
  loopback : Bool
  monitor : Bool
deriving DecidableEq, Repr

/-- Configuration pushed by `Interface::new` for every channel:
bitrate 0, enabled, no loopback, no monitor. -/
def init_channel : Channel :=
  { bitrate := 0, enabled := true, loopback := false, monitor := false }

/-- Mode command handed to the Transport (struct `Mode` of the device
module): raw mode word plus feature flag bitmask. -/
structure Mode where
  mode : Nat
  flags : Nat
deriving DecidableEq, Repr

/-- Modelled from the spec: numeric value of `CanMode::Start` (the enum
lives in the device module; the exact value affects no claim). -/
def CanModeStart : Nat := 1

/-- Modelled from the spec: numeric value of `CanMode::Reset`. -/
def CanModeReset : Nat := 0

/-- Modelled from the spec: the Transport collaborator of spec section
6 (the `device` module is outside the sources).  Each fallible
Transport call is abstracted as a success predicate over its arguments:
`true` embeds `Ok(())` and `false` embeds a device error. -/
structure Device where
  set_mode_ok : Nat → Mode → Bool
  set_bit_timing_ok : Nat → BitTiming → Bool
  send_ok : HostFrame → Bool
  start_transfers_ok : Bool
  stop_transfers_ok : Bool

/-- Result of one driver call: an `Ok` value, a typed `Err`, an
out-of-bounds indexing panic, or an `unwrap`/`expect` panic on a failed
Transport call. -/
inductive Outcome (α : Type) where
  | ok (a : α)
  | err (e : Error)
  | panicIndex
  | panicUnwrap

/-- Driver session state (struct `Interface`).  The `Arc<RwLock<bool>>`
running flag is embedded as a plain `Bool`: each embedded operation is
a single caller-side step holding the lock as the source does. -/
structure Interface where
  dev : Device
  running : Bool
  can_clock : Nat
  channel_count : Nat
  sw_version : Nat
  hw_version : Nat
  channels : List Channel

/-- Embedding of `Interface::new`.  Device discovery and the descriptor
reads happen in the Transport (outside the sources), so the discovered
device and the descriptor values are parameters; the constructor body
pushes `channel_count + 1` default channel configurations
(`channel_count` is the zero-based maximum index `icount`). -/
def Interface.new (dev : Device) (icount can_clock sw_version hw_version : Nat) : Interface :=
  { dev := dev
    running := false
    can_clock := can_clock
    channel_count := icount
    sw_version := sw_version
    hw_version := hw_version
    channels := List.replicate (icount + 1) init_channel }

/-- Embedding of `Interface::set_bitrate`; `env` abstracts the f32
computations for the pair `(self.can_clock, bitrate)`.  A failed
Transport `set_bit_timing` call panics through `expect`, and the
subsequent store indexes the channel vector. -/
def Interface.set_bitrate (i : Interface) (env : FloatEnv) (channel bitrate : Nat) :
    Outcome Interface :=
  if channel > i.channel_count then .err .InvalidChannel
  else
    match calculate_bit_timing env bitrate with
    | .error e => .err e
    | .ok bt =>
      if i.dev.set_bit_timing_ok channel bt then
        if _h : channel < i.channels.length then
          .ok { i with channels :=
            i.channels.set channel { i.channels[channel] with bitrate := bitrate } }
        else .panicIndex
      else .panicUnwrap

/-- Embedding of `Interface::set_bit_timing`: no channel-range check is
performed; the caller-supplied values are pushed to the Transport
directly (with `prop_seg = 0`) and a failed call panics through
`expect`. -/
def Interface.set_bit_timing (i : Interface) (channel brp phase_seg1 phase_seg2 sjw : Nat) :
    Outcome Interface :=
  if i.dev.set_bit_timing_ok channel
      { brp := brp, prop_seg := 0, phase_seg1 := phase_seg1,
        phase_seg2 := phase_seg2, sjw := sjw } then
    .ok i
  else .panicUnwrap

/-- Embedding of `Interface::set_monitor`: channel-range check, then
running-state check, then the indexed store of the monitor flag. -/
def Interface.set_monitor (i : Interface) (channel : Nat) (enabled : Bool) :
    Outcome Interface :=
  if channel > i.channel_count then .err .InvalidChannel
  else if i.running then .err .Running
  else if _h : channel < i.channels.length then
    .ok { i with channels :=
      i.channels.set channel { i.channels[channel] with monitor := enabled } }
  else .panicIndex

/-- Embedding of `Interface::set_enabled`: same guards, stores the
enabled flag. -/
def Interface.set_enabled (i : Interface) (channel : Nat) (enabled : Bool) :
    Outcome Interface :=
  if channel > i.channel_count then .err .InvalidChannel
  else if i.running then .err .Running
  else if _h : channel < i.channels.length then
    .ok { i with channels :=
      i.channels.set channel { i.channels[channel] with enabled := enabled } }
  else .panicIndex

/-- Embedding of `Interface::set_loopback`: same guards, stores the
loopback flag. -/
def Interface.set_loopback (i : Interface) (channel : Nat) (enabled : Bool) :
    Outcome Interface :=
  if channel > i.channel_count then .err .InvalidChannel
  else if i.running then .err .Running
  else if _h : channel < i.channels.length then
    .ok { i with channels :=
      i.channels.set channel { i.channels[channel] with loopback := enabled } }
  else .panicIndex

/-- Feature flag word composed by `Interface::start` for one channel. -/
def start_flags (ch : Channel) : Nat :=
  let flags := 0
  let flags := if ch.monitor then flags ||| GSUSB_FEATURE_LISTEN_ONLY else flags
  if ch.loopback then flags ||| GSUSB_FEATURE_LOOP_BACK else flags

/-- Embedding of `Interface::start`: issue a Start mode word for every
enabled channel (a failed call is unwrapped and panics), set the
running flag, then begin transfers (again unwrapped).  The spawned
receive dispatcher thread is concurrent behaviour and is not part of
this embedding. -/
def Interface.start (i : Interface) : Outcome Interface :=
  if i.channels.enum.all
      (fun p => !p.2.enabled ||
        i.dev.set_mode_ok p.1 { mode := CanModeStart, flags := start_flags p.2 }) then
    if i.dev.start_transfers_ok then .ok { i with running := true }
    else .panicUnwrap
  else .panicUnwrap

/-- Embedding of `Interface::stop`: issue a Reset mode word for every
enabled channel, halt transfers (both unwrapped), clear the running
flag. -/
def Interface.stop (i : Interface) : Outcome Interface :=
  if i.channels.enum.all
      (fun p => !p.2.enabled ||
        i.dev.set_mode_ok p.1 { mode := CanModeReset, flags := 0 }) then
    if i.dev.stop_transfers_ok then .ok { i with running := false }
    else .panicUnwrap
  else .panicUnwrap

/-- Embedding of `Interface::send`: `NotRunning` while stopped,
otherwise encode and hand the wire frame to the Transport, panicking
through `unwrap` if the Transport fails. -/
def Interface.send (i : Interface) (f : Frame) : Outcome Interface :=
  if !i.running then .err .NotRunning
  else if i.dev.send_ok f.to_host_frame then .ok i
  else .panicUnwrap

/-- Embedding of the `Interface::channels` accessor, renamed because
the Lean field `channels` holds the configuration vector: returns
`channel_count + 1`. -/
def Interface.channels_count (i : Interface) : Nat := i.channel_count + 1

/-- Transport oracle on which every call succeeds. -/
def dev_ok : Device :=
  { set_mode_ok := fun _ _ => true
    set_bit_timing_ok := fun _ _ => true
    send_ok := fun _ => true
    start_transfers_ok := true
    stop_transfers_ok := true }

/-- A freshly constructed single-channel interface (zero-based maximum
channel index 0). -/
def iface0 : Interface := Interface.new dev_ok 0 24000000 2 1

/-- C1 counterexample: `set_bit_timing` performs no channel-range
check.  On a single-channel interface (zero-based maximum index 0) the
out-of-range index 5 does not produce `InvalidChannel`; the call pushes
the timing to the Transport and returns `Ok`. -/
theorem set_bit_timing_skips_channel_check :
    iface0.set_bit_timing 5 6 13 2 1 ≠ .err .InvalidChannel ∧
    iface0.set_bit_timing 5 6 13 2 1 = .ok iface0 := by
  have h2 : iface0.set_bit_timing 5 6 13 2 1 = .ok iface0 := rfl
  refine ⟨?_, h2⟩
  rw [h2]
  intro h
  exact Outcome.noConfusion h

/-- C1 (amended): `set_bitrate`, `set_monitor`, `set_enabled` and
`set_loopback` fail with `InvalidChannel` exactly when the index
exceeds `channel_count` (the zero-based maximum index), hence never for
a valid index; `set_bit_timing` performs no channel-range check and
never returns `InvalidChannel` for any index. -/
theorem setter_channel_checks (i : Interface) (env : FloatEnv)
    (channel bitrate brp s1 s2 sjw : Nat) (en : Bool) :
    (i.set_bitrate env channel bitrate = .err .InvalidChannel ↔
      channel > i.channel_count) ∧
    (i.set_monitor channel en = .err .InvalidChannel ↔ channel > i.channel_count) ∧
    (i.set_enabled channel en = .err .InvalidChannel ↔ channel > i.channel_count) ∧
    (i.set_loopback channel en = .err .InvalidChannel ↔ channel > i.channel_count) ∧
    i.set_bit_timing channel brp s1 s2 sjw ≠ .err .InvalidChannel := by
  refine ⟨?_, ?_, ?_, ?_, ?_⟩
  · by_cases hc : channel > i.channel_count
    · simp [Interface.set_bitrate, hc]
    · rcases calculate_bit_timing_error_shape env bitrate with ⟨bt, hbt⟩ | hbt
      · simp only [Interface.set_bitrate, if_neg hc, hbt]
        split_ifs <;> simp [hc]
      · simp only [Interface.set_bitrate, if_neg hc, hbt]
        simp [hc]
  · by_cases hc : channel > i.channel_count
    · simp [Interface.set_monitor, hc]
    · simp only [Interface.set_monitor, if_neg hc]
      split_ifs <;> simp [hc]
  · by_cases hc : channel > i.channel_count
    · simp [Interface.set_enabled, hc]
    · simp only [Interface.set_enabled, if_neg hc]
      split_ifs <;> simp [hc]
  · by_cases hc : channel > i.channel_count
    · simp [Interface.set_loopback, hc]
    · simp only [Interface.set_loopback, if_neg hc]
      split_ifs <;> simp [hc]
  · simp only [Interface.set_bit_timing]
    split_ifs <;> simp

/-- Witness for C1 at a concrete interface: index 1 on a single-channel
device is rejected with `InvalidChannel`. -/
theorem setter_channel_checks_witness :
    iface0.set_monitor 1 true = .err .InvalidChannel :=
  (setter_channel_checks iface0 env_ok 1 0 6 13 2 1 true).2.1.mpr (by decide)

/-- Transport oracle whose `set_mode` call always fails. -/
def dev_mode_fail : Device := { dev_ok with set_mode_ok := fun _ _ => false }

/-- Transport oracle whose wire `send` always fails. -/
def dev_send_fail : Device := { dev_ok with send_ok := fun _ => false }

/-- Transport oracle whose `stop_transfers` call fails. -/
def dev_stop_fail : Device := { dev_ok with stop_transfers_ok := false }

/-- C2: a failing Transport call inside `start`, `send` or `stop` is
unwrapped by the driver and panics (process abort) instead of being
returned as `DeviceError`: with a Transport whose `set_mode` fails,
`start` on a fresh interface panics; with a failing wire send, `send`
on a running session panics; with a failing `stop_transfers`, `stop`
panics.  This exhibits the defect the spec directs to correct. -/
theorem transport_failure_panics :
    (Interface.new dev_mode_fail 0 24000000 2 1).start = .panicUnwrap ∧
    ({ Interface.new dev_send_fail 0 24000000 2 1 with running := true }).send
      Frame.default = .panicUnwrap ∧
    (Interface.new dev_stop_fail 0 24000000 2 1).stop = .panicUnwrap := by
  exact ⟨rfl, rfl, rfl⟩

/-- C7: with a valid channel index (and the channel vector respecting
the construction invariant), the three mode setters fail with `Running`
exactly while the session runs and otherwise mutate only the addressed
field of the addressed entry, and `send` on a stopped session fails
with `NotRunning` for every Transport oracle, so no frame reaches the
Transport. -/
theorem state_guards (i : Interface) (channel : Nat) (en : Bool) (f : Frame)
    (hch : channel ≤ i.channel_count)
    (hlen : channel < i.channels.length) :
    (i.running = true →
      i.set_monitor channel en = .err .Running ∧
      i.set_enabled channel en = .err .Running ∧
      i.set_loopback channel en = .err .Running) ∧
    (i.running = false →
      i.set_monitor channel en =
        .ok { i with
              channels := i.channels.set channel
                { i.channels.getD channel init_channel with monitor := en } } ∧
      i.set_enabled channel en =
        .ok { i with
              channels := i.channels.set channel
                { i.channels.getD channel init_channel with enabled := en } } ∧
      i.set_loopback channel en =
        .ok { i with
              channels := i.channels.set channel
                { i.channels.getD channel init_channel with loopback := en } }) ∧
    (i.running = false → i.send f = .err .NotRunning) := by
  have hnot : ¬ channel > i.channel_count := by omega
  have hg : i.channels.getD channel init_channel = i.channels[channel] :=
    List.getD_eq_getElem _ _ hlen
  refine ⟨fun hr => ?_, fun hr => ?_, fun hr => ?_⟩
  · refine ⟨?_, ?_, ?_⟩ <;>
      simp [Interface.set_monitor, Interface.set_enabled, Interface.set_loopback,
        hnot, hr]
  · refine ⟨?_, ?_, ?_⟩ <;>
      simp [Interface.set_monitor, Interface.set_enabled, Interface.set_loopback,
        hnot, hr, hlen, hg]
  · simp [Interface.send, hr]

/-- Witness for C7 on a concrete stopped interface: `send` is rejected
with `NotRunning`. -/
theorem state_guards_witness :
    iface0.send Frame.default = .err .NotRunning :=
  (state_guards iface0 0 true Frame.default (by decide) (by decide)).2.2 rfl

/-- Channel-vector length of an `Ok` outcome, or the fallback value for
any error or panic outcome. -/
def Outcome.channelsLengthOr (o : Outcome Interface) (d : Nat) : Nat :=
  match o with
  | .ok j => j.channels.length
  | _ => d

/-- Channel count of an `Ok` outcome, or the fallback value. -/
def Outcome.channelCountOr (o : Outcome Interface) (d : Nat) : Nat :=
  match o with
  | .ok j => j.channel_count
  | _ => d

/-- C10: `Interface::new` establishes `channels.length = channel_count + 1`;
every driver operation preserves both the vector length and
`channel_count` on success; the `channels()` accessor returns exactly
the vector length; and under the invariant every setter that passes the
`channel > channel_count` guard indexes the vector in bounds, so no
operation takes the out-of-bounds panic branch. -/
theorem channels_length_invariant (dev : Device) (n c s hw : Nat)
    (i : Interface) (env : FloatEnv)
    (channel bitrate brp s1 s2 sjw : Nat) (en : Bool) (f : Frame)
    (hlen : i.channels.length = i.channel_count + 1)
    (hch : channel ≤ i.channel_count) :
    (Interface.new dev n c s hw).channels.length =
      (Interface.new dev n c s hw).channel_count + 1 ∧
    i.channels_count = i.channels.length ∧
    (i.set_bitrate env channel bitrate).channelsLengthOr i.channels.length =
      i.channels.length ∧
    (i.set_bitrate env channel bitrate).channelCountOr i.channel_count =
      i.channel_count ∧
    (i.set_bit_timing channel brp s1 s2 sjw).channelsLengthOr i.channels.length =
      i.channels.length ∧
    (i.set_bit_timing channel brp s1 s2 sjw).channelCountOr i.channel_count =
      i.channel_count ∧
    (i.set_monitor channel en).channelsLengthOr i.channels.length =
      i.channels.length ∧
    (i.set_monitor channel en).channelCountOr i.channel_count = i.channel_count ∧
    (i.set_enabled channel en).channelsLengthOr i.channels.length =
      i.channels.length ∧
    (i.set_enabled channel en).channelCountOr i.channel_count = i.channel_count ∧
    (i.set_loopback channel en).channelsLengthOr i.channels.length =
      i.channels.length ∧
    (i.set_loopback channel en).channelCountOr i.channel_count = i.channel_count ∧
    i.start.channelsLengthOr i.channels.length = i.channels.length ∧
    i.start.channelCountOr i.channel_count = i.channel_count ∧
    i.stop.channelsLengthOr i.channels.length = i.channels.length ∧
    i.stop.channelCountOr i.channel_count = i.channel_count ∧
    (i.send f).channelsLengthOr i.channels.length = i.channels.length ∧
    (i.send f).channelCountOr i.channel_count = i.channel_count ∧
    i.set_bitrate env channel bitrate ≠ .panicIndex ∧
    i.set_monitor channel en ≠ .panicIndex ∧
    i.set_enabled channel en ≠ .panicIndex ∧
    i.set_loopback channel en ≠ .panicIndex ∧
    i.set_bit_timing channel brp s1 s2 sjw ≠ .panicIndex ∧
    i.start ≠ .panicIndex ∧ i.stop ≠ .panicIndex ∧ i.send f ≠ .panicIndex := by
  have hidx : channel < i.channels.length := by omega
  refine ⟨?_, ?_, ?_, ?_, ?_, ?_, ?_, ?_, ?_, ?_, ?_, ?_, ?_, ?_, ?_, ?_, ?_, ?_,
    ?_, ?_, ?_, ?_, ?_, ?_, ?_, ?_⟩
  · simp [Interface.new]
  · simp [Interface.channels_count, hlen]
  · rcases calculate_bit_timing_error_shape env bitrate with ⟨bt, hbt⟩ | hbt <;>
      simp only [Interface.set_bitrate, hbt] <;> split_ifs <;>
      simp [Outcome.channelsLengthOr]
  · rcases calculate_bit_timing_error_shape env bitrate with ⟨bt, hbt⟩ | hbt <;>
      simp only [Interface.set_bitrate, hbt] <;> split_ifs <;>
      simp [Outcome.channelCountOr]
  · simp only [Interface.set_bit_timing]
    split_ifs <;> simp [Outcome.channelsLengthOr]
  · simp only [Interface.set_bit_timing]
    split_ifs <;> simp [Outcome.channelCountOr]
  · simp only [Interface.set_monitor]
    split_ifs <;> simp [Outcome.channelsLengthOr]
  · simp only [Interface.set_monitor]
    split_ifs <;> simp [Outcome.channelCountOr]
  · simp only [Interface.set_enabled]
    split_ifs <;> simp [Outcome.channelsLengthOr]
  · simp only [Interface.set_enabled]
    split_ifs <;> simp [Outcome.channelCountOr]
  · simp only [Interface.set_loopback]
    split_ifs <;> simp [Outcome.channelsLengthOr]
  · simp only [Interface.set_loopback]
    split_ifs <;> simp [Outcome.channelCountOr]
  · simp only [Interface.start]
    split_ifs <;> simp [Outcome.channelsLengthOr]
  · simp only [Interface.start]
    split_ifs <;> simp [Outcome.channelCountOr]
  · simp only [Interface.stop]
    split_ifs <;> simp [Outcome.channelsLengthOr]
  · simp only [Interface.stop]
    split_ifs <;> simp [Outcome.channelCountOr]
  · simp only [Interface.send]
    split_ifs <;> simp [Outcome.channelsLengthOr]
  · simp only [Interface.send]
    split_ifs <;> simp [Outcome.channelCountOr]
  · rcases calculate_bit_timing_error_shape env bitrate with ⟨bt, hbt⟩ | hbt <;>
      simp only [Interface.set_bitrate, hbt] <;> split_ifs <;> simp_all
  · simp only [Interface.set_monitor]
    split_ifs <;> simp_all
  · simp only [Interface.set_enabled]
    split_ifs <;> simp_all
  · simp only [Interface.set_loopback]
    split_ifs <;> simp_all
  · simp only [Interface.set_bit_timing]
    split_ifs <;> simp
  · simp only [Interface.start]
    split_ifs <;> simp
  · simp only [Interface.stop]
    split_ifs <;> simp
  · simp only [Interface.send]
    split_ifs <;> simp

/-- Witness for C10 on a concrete fresh interface: the accessor agrees
with the vector length. -/
theorem channels_length_invariant_witness :
    iface0.channels_count = iface0.channels.length :=
  (channels_length_invariant dev_ok 0 24000000 2 1 iface0 env_ok 0 0 6 13 2 1 true
    Frame.default (by decide) (by decide)).2.1

end Cantact
